import Mathlib

/-!
Shallow embedding of `src/main_store.py`, a Confluence action-store module:
a transport layer (`get_wrapper`, `post_wrapper`) built on `requests`, and a
set of actions (`create_page`, `get_parent_id`, `get_space_id`,
`get_all_spaces`, `get_available_parents`) that call it.

Modelling conventions:
- JSON values are the inductive `Json`; a Python `dict` is `Json.obj` over an
  association list (insertion ordered, as Python dicts are).
- An HTTP response is a status code plus an optional parsed body; `none`
  stands for a body that is not valid JSON (in particular the empty body of a
  204 response), so `HttpResp.json` models `response.json()` raising
  `json.JSONDecodeError` on it.
- The network is a function `World : Request → HttpResp` giving the server's
  response to each request.  Every transport call also returns the list of
  requests it issued, so "performs exactly one GET to E" is a statement about
  that list.
- Python exceptions are the inductive `PyError`; functions that may raise
  return `Except PyError _`.  `str(e)` is modelled by `PyError.pyStr` (the
  exact message text is abbreviated; no property below depends on it).
-/

namespace ConfluenceStore

/-- A JSON value, as produced by `response.json()` / consumed by `json.dumps`. -/
inductive Json where
  | null : Json
  | bool : Bool → Json
  | num : Int → Json
  | str : String → Json
  | arr : List Json → Json
  | obj : List (String × Json) → Json

/-- Python exceptions that the embedded code can raise. -/
inductive PyError where
  /-- Models `requests.exceptions.HTTPError`, raised by `raise_for_status`; the
  attached `response` carries the status code and the body. -/
  | httpError : Nat → Option Json → PyError
  /-- Models `json.JSONDecodeError`, raised by `response.json()` on a non-JSON body. -/
  | jsonDecodeError : PyError
  /-- Models `KeyError`, raised by `d[k]` when the dict lacks key `k`. -/
  | keyError : String → PyError
  /-- Models `TypeError`, raised e.g. by subscripting `None` or a non-dict. -/
  | typeError : PyError
  /-- Models `pydantic.ValidationError`, raised when a payload fails model validation. -/
  | validationError : PyError

/-- Abbreviated rendering of `str(e)`; no verified property depends on the
exact message text. -/
def PyError.pyStr : PyError → String
  | .httpError s _ => toString s ++ " Error for url"
  | .jsonDecodeError => "Expecting value: line 1 column 1 (char 0)"
  | .keyError k => k
  | .typeError => "object is not subscriptable"
  | .validationError => "validation error"

/-- HTTP method of a request. -/
inductive Method where
  | get : Method
  | post : Method
deriving DecidableEq

/-- One HTTP request issued by the transport layer: method, endpoint (the
path appended to the base URL) and optional JSON body. -/
structure Request where
  method : Method
  endpoint : String
  body : Option Json

/-- An HTTP response: status code and parsed body; `body = none` models a
body that is not valid JSON (e.g. the empty body of a 204). -/
structure HttpResp where
  status : Nat
  body : Option Json

/-- The network: the server's response to each request. -/
def World : Type := Request → HttpResp

/-- Models `response.json()`: returns the parsed body, raising `JSONDecodeError`
when the body is not valid JSON. -/
def HttpResp.json (response : HttpResp) : Except PyError Json :=
  match response.body with
  | some j => .ok j
  | none => .error .jsonDecodeError

/-- Models `response.raise_for_status()` from `requests`: raises `HTTPError` (with
the response attached) exactly when `400 <= status_code < 600`; 1xx, 2xx and
3xx responses do not raise. -/
def raise_for_status (response : HttpResp) : Except PyError Unit :=
  if 400 ≤ response.status ∧ response.status < 600 then
    .error (.httpError response.status response.body)
  else
    .ok ()

/-- Models `json.dumps(data) if data else None` at the `requests.post` call site:
`data` is an optional dict and an empty dict is falsy, so no body is sent
for it. -/
def truthyData : Option Json → Option Json
  | some (.obj fields) => if fields.isEmpty then none else some (.obj fields)
  | some j => some j
  | none => none

/-- Models `post_wrapper(endpoint, data)` (src lines 19-40): POSTs `data` to the
endpoint, calls `raise_for_status`, then unconditionally returns
`response.json()` — there is no 204 special case on the POST path.
The second component is the list of requests issued. -/
def post_wrapper (world : World) (endpoint : String) (data : Option Json) :
    Except PyError Json × List Request :=
  let req : Request := { method := .post, endpoint := endpoint, body := truthyData data }
  let response := world req
  let res : Except PyError Json :=
    match raise_for_status response with
    | .error e => .error e
    | .ok _ => response.json
  (res, [req])

/-- Models `get_wrapper(endpoint)` (src lines 43-65): GETs the endpoint, calls
`raise_for_status`, then returns `response.json()` unless the status is 204,
in which case it returns `None`.  The second component is the list of
requests issued. -/
def get_wrapper (world : World) (endpoint : String) :
    Except PyError (Option Json) × List Request :=
  let req : Request := { method := .get, endpoint := endpoint, body := none }
  let response := world req
  let res : Except PyError (Option Json) :=
    match raise_for_status response with
    | .error e => .error e
    | .ok _ =>
        if response.status ≠ 204 then
          (HttpResp.json response).map some
        else
          .ok none
  (res, [req])

/-! ### Python dict / JSON primitives -/

/-- First binding of key `k` in an association list (Python dict lookup order:
keys are unique in a dict, and lookup finds the stored value). -/
def lookupField : List (String × Json) → String → Option Json
  | [], _ => none
  | (k0, v) :: rest, k => if k0 = k then some v else lookupField rest k

/-- Python `d[k] = v` on a dict: replaces the value at an existing key in
place (keeping its position) or appends the new key at the end. -/
def setKey : List (String × Json) → String → Json → List (String × Json)
  | [], k, v => [(k, v)]
  | (k0, v0) :: rest, k, v =>
      if k0 = k then (k0, v) :: rest else (k0, v0) :: setKey rest k v

/-- Lookup of key `k` when the value is a JSON object; `none` otherwise. -/
def Json.get? (j : Json) (k : String) : Option Json :=
  match j with
  | .obj fields => lookupField fields k
  | _ => none

/-- Python `x[k]` for a string key `k`: succeeds only on a dict containing
`k`; a dict missing `k` raises `KeyError`, any non-dict raises `TypeError`. -/
def Json.subscript (j : Json) (k : String) : Except PyError Json :=
  match j with
  | .obj fields =>
      match lookupField fields k with
      | some v => .ok v
      | none => .error (.keyError k)
  | _ => .error .typeError

/-- Python `x[k]` where `x` may be `None` (the 204 result of `get_wrapper`):
subscripting `None` raises `TypeError`. -/
def pySubscript (x : Option Json) (k : String) : Except PyError Json :=
  match x with
  | none => .error .typeError
  | some j => j.subscript k

/-- Python `for y in x`: a list yields its elements, a dict its keys, a
string its characters (as one-character strings); `None`, booleans and
numbers are not iterable and raise `TypeError`. -/
def pyIter : Json → Except PyError (List Json)
  | .arr xs => .ok xs
  | .obj fields => .ok (fields.map fun f => .str f.1)
  | .str s => .ok (s.data.map fun c => .str (String.mk [c]))
  | _ => .error .typeError

/-- Python `x == t` for a string literal `t`: true exactly when `x` is a
string equal to `t`; comparison with a value of any other type is `False`
(never an error). -/
def Json.eqStr (j : Json) (t : String) : Bool :=
  match j with
  | .str s => s == t
  | _ => false

/-- Pydantic validation of a value against a `str` field: accepts a string,
coerces an int to its decimal string and a bool (an `int` subclass in
Python) to `"True"`/`"False"` (pydantic v1 coercion), rejects anything else
with a `ValidationError`. -/
def pyStrField : Json → Except PyError String
  | .str s => .ok s
  | .num n => .ok (toString n)
  | .bool b => .ok (if b then "True" else "False")
  | _ => .error .validationError

/-- Pydantic validation of a value against an `int` field: accepts an int,
coerces a bool (`True` is `1`) and a string holding an integer literal
(pydantic v1 coercion), rejects anything else with a `ValidationError`. -/
def pyIntField : Json → Except PyError Int
  | .num n => .ok n
  | .bool b => .ok (if b then 1 else 0)
  | .str s =>
      match s.toInt? with
      | some n => .ok n
      | none => .error .validationError
  | _ => .error .validationError

/-! ### Request/response models (src lines 82-103, 134-138, 163-172, 188-189) -/

/-- Models `CreatePageRequest` (src lines 82-86): `spaceId` and `body` are required
strings, `title` and `parentId` are optional. -/
structure CreatePageRequest where
  spaceId : String
  title : Option String
  parentId : Option String
  body : String

/-- Models `SpaceParams` (src lines 99-100). -/
structure SpaceParams where
  space_key : String

/-- Models `ContentId` (src lines 102-103). -/
structure ContentId where
  content_id : String

/-- Models `SpaceDetails` (src lines 134-138): the declared (but never constructed)
return model of `get_space_id`. -/
structure SpaceDetails where
  id : Int
  key : String
  name : String
  description : Option String := none

/-- Models `SpaceSummary` (src lines 163-169): the per-space record built by
`get_all_spaces`; `description` defaults to `None`. -/
structure SpaceSummary where
  id : String
  key : String
  name : String
  type : String
  status : String
  description : Option String := none

/-- Models `GetAllSpacesResponse` (src lines 171-172): declares only `results`;
there is no `message` field, so pydantic silently discards a `message`
keyword passed to the constructor. -/
structure GetAllSpacesResponse where
  results : List SpaceSummary

/-- Models `GetAvailableParentsPayload` (src lines 188-189). -/
structure GetAvailableParentsPayload where
  space_id : Int

/-- Pydantic serialization of a `SpaceSummary`: all declared fields,
`description` as `null` when absent. -/
def SpaceSummary.toJson (s : SpaceSummary) : Json :=
  .obj [("id", .str s.id), ("key", .str s.key), ("name", .str s.name),
        ("type", .str s.type), ("status", .str s.status),
        ("description", match s.description with
          | some d => .str d
          | none => .null)]

/-- Pydantic serialization of a `GetAllSpacesResponse`: exactly the declared
fields, i.e. only `results`. -/
def GetAllSpacesResponse.toJson (r : GetAllSpacesResponse) : Json :=
  .obj [("results", .arr (r.results.map SpaceSummary.toJson))]

/-! ### Actions -/

/-- Python `None`-able string rendered into a JSON dict literal
(`json.dumps` turns `None` into `null`). -/
def optStr : Option String → Json
  | some s => .str s
  | none => .null

/-- The `data` dict literal built by `create_page` (src lines 108-117). -/
def create_page_data (params : CreatePageRequest) : Json :=
  .obj [("spaceId", .str params.spaceId),
        ("status", .str "current"),
        ("title", optStr params.title),
        ("parentId", optStr params.parentId),
        ("body", .obj [("representation", .str "storage"),
                       ("value", .str params.body)])]

/-- Models `create_page(params)` (src lines 105-119): POSTs the `data` dict to
`/wiki/api/v2/pages` and returns the transport result unchanged. -/
def create_page (world : World) (params : CreatePageRequest) :
    Except PyError Json × List Request :=
  post_wrapper world "/wiki/api/v2/pages" (some (create_page_data params))

/-- Models `get_parent_id(params)` (src lines 121-123): a pass-through GET; any
transport exception propagates to the caller (there is no try/except). -/
def get_parent_id (world : World) (params : ContentId) :
    Except PyError (Option Json) × List Request :=
  get_wrapper world ("/wiki/rest/api/content/" ++ params.content_id ++ "?expand=ancestors")

/-- Models `get_space_id(params)` (src lines 140-142): returns the raw
`get_wrapper` result directly; despite the `SpaceDetails` annotation no
`SpaceDetails` is constructed and no field is checked. -/
def get_space_id (world : World) (params : SpaceParams) :
    Except PyError (Option Json) × List Request :=
  get_wrapper world ("/wiki/rest/api/space/" ++ params.space_key)

/-- The body of the `get_all_spaces` list comprehension (src line 180):
evaluate `space["id"]`, `space["key"]`, `space["name"]`, `space["type"]`,
`space["status"]`, then validate them as the `str` fields of a
`SpaceSummary`; `description` is never passed and keeps its `None` default. -/
def mkSpaceSummary (space : Json) : Except PyError SpaceSummary :=
  match space.subscript "id" with
  | .error e => .error e
  | .ok i =>
  match space.subscript "key" with
  | .error e => .error e
  | .ok k =>
  match space.subscript "name" with
  | .error e => .error e
  | .ok n =>
  match space.subscript "type" with
  | .error e => .error e
  | .ok t =>
  match space.subscript "status" with
  | .error e => .error e
  | .ok st =>
  match pyStrField i with
  | .error e => .error e
  | .ok id =>
  match pyStrField k with
  | .error e => .error e
  | .ok key =>
  match pyStrField n with
  | .error e => .error e
  | .ok name =>
  match pyStrField t with
  | .error e => .error e
  | .ok ty =>
  match pyStrField st with
  | .error e => .error e
  | .ok status =>
    .ok { id := id, key := key, name := name, type := ty, status := status,
          description := none }

/-- The `get_all_spaces` list comprehension (src lines 179-182): build one
`SpaceSummary` per entry, in order, aborting at the first exception. -/
def buildSummaries : List Json → Except PyError (List SpaceSummary)
  | [] => .ok []
  | space :: rest =>
      match mkSpaceSummary space with
      | .error e => .error e
      | .ok s =>
          match buildSummaries rest with
          | .error e => .error e
          | .ok tail => .ok (s :: tail)

/-- The `try` block of `get_all_spaces` (src lines 178-183) as a function of
the transport result. -/
def get_all_spaces_core (res : Except PyError (Option Json)) :
    Except PyError GetAllSpacesResponse :=
  match res with
  | .error e => .error e
  | .ok response =>
      match pySubscript response "results" with
      | .error e => .error e
      | .ok resultsJson =>
          match pyIter resultsJson with
          | .error e => .error e
          | .ok spaces =>
              match buildSummaries spaces with
              | .error e => .error e
              | .ok results => .ok { results := results }

/-- Models `get_all_spaces()` (src lines 174-185): on any exception the `except`
branch runs `GetAllSpacesResponse(results=[], message=str(e))`; since the
model declares no `message` field, pydantic discards that keyword and the
constructed value is just `{ results := [] }`. -/
def get_all_spaces (world : World) : GetAllSpacesResponse × List Request :=
  let res := get_wrapper world "/wiki/rest/api/space"
  match get_all_spaces_core res.1 with
  | .ok r => (r, res.2)
  | .error _ => ({ results := [] }, res.2)

/-- Models `get_space_details(request)` (src lines 153-160): returns the raw
`get_wrapper` result (a dict, or `None` on a 204); on any exception returns
the dict `{"message": str(e)}`. -/
def get_space_details (world : World) (request : SpaceParams) :
    Option Json × List Request :=
  let res := get_wrapper world ("/wiki/rest/api/space/" ++ request.space_key)
  match res.1 with
  | .ok response => (response, res.2)
  | .error e => (some (.obj [("message", .str e.pyStr)]), res.2)

/-- The list comprehension of `get_available_parents` (src line 199):
`[page for page in pages if page["status"] == "current"]`, with the first
raised exception aborting the whole comprehension. -/
def filterCurrent : List Json → Except PyError (List Json)
  | [] => .ok []
  | page :: rest =>
      match page.subscript "status" with
      | .error e => .error e
      | .ok st =>
          match filterCurrent rest with
          | .error e => .error e
          | .ok tail =>
              if st.eqStr "current" then .ok (page :: tail) else .ok tail

/-- The `try` block of `get_available_parents` (src lines 195-202) as a
function of the transport result: `response["results"]`, filter, write the
filtered list back into `response["results"]`, return `response`. -/
def get_available_parents_core (res : Except PyError (Option Json)) :
    Except PyError Json :=
  match res with
  | .error e => .error e
  | .ok none => .error .typeError
  | .ok (some (.obj fields)) =>
      match lookupField fields "results" with
      | none => .error (.keyError "results")
      | some pages =>
          match pyIter pages with
          | .error e => .error e
          | .ok pagesList =>
              match filterCurrent pagesList with
              | .error e => .error e
              | .ok current_pages =>
                  .ok (.obj (setKey fields "results" (.arr current_pages)))
  | .ok (some _) => .error .typeError

/-- Models `get_available_parents(request)` (src lines 191-204): on any exception
returns the dict `{"message": str(e)}`. -/
def get_available_parents (world : World) (request : GetAvailableParentsPayload) :
    Json × List Request :=
  let res := get_wrapper world ("/wiki/api/v2/spaces/" ++ toString request.space_id ++ "/pages")
  match get_available_parents_core res.1 with
  | .ok response => (response, res.2)
  | .error e => (.obj [("message", .str e.pyStr)], res.2)

/-! ### Payload validation and dispatch

The host dispatcher (the `kubiya` `ActionStore`, not part of `src/`) builds
each action's pydantic request model from the incoming JSON payload before
the action body runs, so a payload missing a required field fails validation
and the action never reaches its transport call. -/

/-- Pydantic v1 parsing of a required `str` field from a payload dict: a
missing key fails validation; a present value is validated as `str`. -/
def getReqStrField (fields : List (String × Json)) (k : String) :
    Except PyError String :=
  match lookupField fields k with
  | none => .error .validationError
  | some j => pyStrField j

/-- Pydantic v1 parsing of an `Optional[str]` field: a missing key or an
explicit `null` yields `none` (v1 gives `Optional` fields an implicit `None`
default); any other value is validated as `str`. -/
def getOptStrField (fields : List (String × Json)) (k : String) :
    Except PyError (Option String) :=
  match lookupField fields k with
  | none => .ok none
  | some .null => .ok none
  | some j =>
      match pyStrField j with
      | .error e => .error e
      | .ok s => .ok (some s)

/-- Modelled from the spec: payload validation for `create_page` — the host
dispatcher (absent from `src/`) validates the payload against
`CreatePageRequest` (src lines 82-86): `spaceId` and `body` required,
`title` and `parentId` optional. -/
def CreatePageRequest.parse (payload : Json) : Except PyError CreatePageRequest :=
  match payload with
  | .obj fields =>
      match getReqStrField fields "spaceId" with
      | .error e => .error e
      | .ok s =>
      match getOptStrField fields "title" with
      | .error e => .error e
      | .ok t =>
      match getOptStrField fields "parentId" with
      | .error e => .error e
      | .ok p =>
      match getReqStrField fields "body" with
      | .error e => .error e
      | .ok b => .ok { spaceId := s, title := t, parentId := p, body := b }
  | _ => .error .validationError

/-- Modelled from the spec: payload validation for `get_parent_id` against
`ContentId` (src lines 102-103): `content_id` required. -/
def ContentId.parse (payload : Json) : Except PyError ContentId :=
  match payload with
  | .obj fields =>
      match getReqStrField fields "content_id" with
      | .error e => .error e
      | .ok c => .ok { content_id := c }
  | _ => .error .validationError

/-- Modelled from the spec: payload validation for `get_space_id` and
`get_space_details` against `SpaceParams` (src lines 99-100): `space_key`
required. -/
def SpaceParams.parse (payload : Json) : Except PyError SpaceParams :=
  match payload with
  | .obj fields =>
      match getReqStrField fields "space_key" with
      | .error e => .error e
      | .ok k => .ok { space_key := k }
  | _ => .error .validationError

/-- Pydantic v1 parsing of a required `int` field from a payload dict: a
missing key fails validation; a present value is validated as `int`. -/
def getReqIntField (fields : List (String × Json)) (k : String) :
    Except PyError Int :=
  match lookupField fields k with
  | none => .error .validationError
  | some j => pyIntField j

/-- Modelled from the spec: payload validation for `get_available_parents`
against `GetAvailableParentsPayload` (src lines 188-189): `space_id`
required. -/
def GetAvailableParentsPayload.parse (payload : Json) :
    Except PyError GetAvailableParentsPayload :=
  match payload with
  | .obj fields =>
      match getReqIntField fields "space_id" with
      | .error e => .error e
      | .ok n => .ok { space_id := n }
  | _ => .error .validationError

/-- Modelled from the spec: the dispatcher validates the payload, then runs
`create_page`; a validation failure is raised before any transport call, so
the request list is empty. -/
def dispatch_create_page (world : World) (payload : Json) :
    Except PyError Json × List Request :=
  match CreatePageRequest.parse payload with
  | .error e => (.error e, [])
  | .ok params => create_page world params

/-- Modelled from the spec: the dispatcher validates the payload, then runs
`get_parent_id`. -/
def dispatch_get_parent_id (world : World) (payload : Json) :
    Except PyError (Option Json) × List Request :=
  match ContentId.parse payload with
  | .error e => (.error e, [])
  | .ok params => get_parent_id world params

/-- Modelled from the spec: the dispatcher validates the payload, then runs
`get_space_id`. -/
def dispatch_get_space_id (world : World) (payload : Json) :
    Except PyError (Option Json) × List Request :=
  match SpaceParams.parse payload with
  | .error e => (.error e, [])
  | .ok params => get_space_id world params

/-- Modelled from the spec: the dispatcher validates the payload, then runs
`get_space_details` (whose own body never raises thanks to its catch-all). -/
def dispatch_get_space_details (world : World) (payload : Json) :
    Except PyError (Option Json) × List Request :=
  match SpaceParams.parse payload with
  | .error e => (.error e, [])
  | .ok params =>
      let r := get_space_details world params
      (.ok r.1, r.2)

/-- Modelled from the spec: the dispatcher validates the payload, then runs
`get_available_parents` (whose own body never raises thanks to its
catch-all). -/
def dispatch_get_available_parents (world : World) (payload : Json) :
    Except PyError Json × List Request :=
  match GetAvailableParentsPayload.parse payload with
  | .error e => (.error e, [])
  | .ok params =>
      let r := get_available_parents world params
      (.ok r.1, r.2)

/-! ### Concrete worlds used by witnesses and counterexamples -/

/-- A network answering every request with the same response. -/
def constWorld (resp : HttpResp) : World := fun _ => resp

/-- A concrete space document whose `key` differs from the one requested. -/
def otherKeySpace : Json :=
  .obj [("id", .num 42), ("key", .str "OTHER"), ("name", .str "Other space")]

/-- A concrete page with `status = "current"`. -/
def currentPage : Json :=
  .obj [("id", .str "1"), ("title", .str "Root"), ("status", .str "current")]

/-- A concrete page with a non-`"current"` status. -/
def draftPage : Json :=
  .obj [("id", .str "2"), ("title", .str "Draft"), ("status", .str "draft")]

/-- A concrete pages listing carrying an extra `_links` field next to
`results`. -/
def pagesListing : Json :=
  .obj [("results", .arr [currentPage, draftPage]), ("_links", .str "next")]

/-- A concrete space entry that does carry a `description` field. -/
def describedSpace : Json :=
  .obj [("id", .str "1"), ("key", .str "S1"), ("name", .str "Space One"),
        ("type", .str "global"), ("status", .str "current"),
        ("description", .str "a described space")]

/-- A concrete spaces listing around `describedSpace`. -/
def spacesListing : Json :=
  .obj [("results", .arr [describedSpace])]

/-- The summary `get_all_spaces` builds from `describedSpace`. -/
def describedSummary : SpaceSummary :=
  { id := "1", key := "S1", name := "Space One", type := "global",
    status := "current", description := none }

/-! ### Helper lemmas -/

theorem lookupField_setKey_self (l : List (String × Json)) (k : String) (v : Json) :
    lookupField (setKey l k v) k = some v := by
  induction l with
  | nil => simp [setKey, lookupField]
  | cons hd tl ih =>
      obtain ⟨k0, v0⟩ := hd
      by_cases h : k0 = k
      · simp [setKey, lookupField, h]
      · simp [setKey, lookupField, h, ih]

theorem lookupField_setKey_ne (l : List (String × Json)) (k : String) (v : Json)
    (k2 : String) (h : k2 ≠ k) :
    lookupField (setKey l k v) k2 = lookupField l k2 := by
  induction l with
  | nil => simp [setKey, lookupField, Ne.symm h]
  | cons hd tl ih =>
      obtain ⟨k0, v0⟩ := hd
      by_cases h0 : k0 = k
      · subst h0
        simp [setKey, lookupField, Ne.symm h]
      · by_cases h2 : k0 = k2
        · subst h2
          simp [setKey, lookupField, h, h0]
        · simp [setKey, lookupField, h0, h2, ih]

theorem eqStr_true {j : Json} {t : String} (h : j.eqStr t = true) : j = .str t := by
  cases j <;> simp_all [Json.eqStr]

theorem filterCurrent_mem {l cur : List Json} (h : filterCurrent l = .ok cur) :
    ∀ p ∈ cur, p.subscript "status" = .ok (.str "current") := by
  induction l generalizing cur with
  | nil =>
      intro p hp
      simp only [filterCurrent] at h
      injection h with h
      subst h
      cases hp
  | cons page rest ih =>
      intro p hp
      simp only [filterCurrent] at h
      cases hs : page.subscript "status" with
      | error e => simp only [hs] at h; cases h
      | ok st =>
          simp only [hs] at h
          cases hf : filterCurrent rest with
          | error e => simp only [hf] at h; cases h
          | ok tail =>
              simp only [hf] at h
              by_cases hc : st.eqStr "current" = true
              · rw [if_pos hc] at h
                injection h with h
                subst h
                rcases List.mem_cons.mp hp with hp | hp
                · subst hp
                  rw [hs, eqStr_true hc]
                · exact ih hf p hp
              · rw [if_neg hc] at h
                injection h with h
                subst h
                exact ih hf p hp

theorem get_wrapper_error {world : World} {ep : String} {s : Nat} {b : Option Json}
    (hw : world ⟨.get, ep, none⟩ = ⟨s, b⟩) (h1 : 400 ≤ s) (h2 : s < 600) :
    (get_wrapper world ep).1 = .error (.httpError s b) := by
  simp only [get_wrapper, hw, raise_for_status]
  rw [if_pos ⟨h1, h2⟩]

theorem get_wrapper_204 {world : World} {ep : String}
    (hst : (world ⟨.get, ep, none⟩).status = 204) :
    (get_wrapper world ep).1 = .ok none := by
  simp only [get_wrapper, raise_for_status, hst]
  rw [if_neg (by decide)]
  rw [if_neg (by decide)]

theorem get_wrapper_ok_2xx {world : World} {ep : String} {s : Nat} {j : Json}
    (hw : world ⟨.get, ep, none⟩ = ⟨s, some j⟩)
    (hn : ¬(400 ≤ s ∧ s < 600)) (h4 : s ≠ 204) :
    (get_wrapper world ep).1 = .ok (some j) := by
  simp only [get_wrapper, hw, raise_for_status]
  rw [if_neg hn, if_pos h4]
  rfl

theorem post_wrapper_error {world : World} {ep : String} {data : Option Json}
    {s : Nat} {b : Option Json}
    (hw : world ⟨.post, ep, truthyData data⟩ = ⟨s, b⟩) (h1 : 400 ≤ s) (h2 : s < 600) :
    (post_wrapper world ep data).1 = .error (.httpError s b) := by
  simp only [post_wrapper, hw, raise_for_status]
  rw [if_pos ⟨h1, h2⟩]

theorem post_wrapper_ok {world : World} {ep : String} {data : Option Json}
    {s : Nat} {j : Json}
    (hw : world ⟨.post, ep, truthyData data⟩ = ⟨s, some j⟩)
    (hn : ¬(400 ≤ s ∧ s < 600)) :
    (post_wrapper world ep data).1 = .ok j := by
  simp only [post_wrapper, hw, raise_for_status]
  rw [if_neg hn]
  rfl

theorem post_wrapper_badbody {world : World} {ep : String} {data : Option Json} {s : Nat}
    (hw : world ⟨.post, ep, truthyData data⟩ = ⟨s, none⟩)
    (hn : ¬(400 ≤ s ∧ s < 600)) :
    (post_wrapper world ep data).1 = .error .jsonDecodeError := by
  simp only [post_wrapper, hw, raise_for_status]
  rw [if_neg hn]
  rfl

/-! ### Claim theorems -/

/-- C1 (amended): for every transport response with status in 400-599,
`get_parent_id` propagates the `HTTPError` to its caller, and
`get_all_spaces` returns a result whose `results` list is empty — but no
error message field is attached, because `GetAllSpacesResponse` declares no
`message` field and pydantic discards the unknown keyword. -/
theorem error_propagation (world : World) (cid : String) (s1 s2 : Nat)
    (b1 b2 : Option Json)
    (hw1 : world ⟨.get, "/wiki/rest/api/content/" ++ cid ++ "?expand=ancestors", none⟩ = ⟨s1, b1⟩)
    (h1a : 400 ≤ s1) (h1b : s1 < 600)
    (hw2 : world ⟨.get, "/wiki/rest/api/space", none⟩ = ⟨s2, b2⟩)
    (h2a : 400 ≤ s2) (h2b : s2 < 600) :
    (get_parent_id world ⟨cid⟩).1 = .error (.httpError s1 b1) ∧
    (get_all_spaces world).1 = { results := [] } ∧
    Json.get? (get_all_spaces world).1.toJson "message" = none := by
  have h2 : (get_all_spaces world).1 = ({ results := [] } : GetAllSpacesResponse) := by
    have hg := get_wrapper_error hw2 h2a h2b
    simp only [get_all_spaces, hg, get_all_spaces_core]
  refine ⟨get_wrapper_error hw1 h1a h1b, h2, ?_⟩
  rw [h2]
  rfl

/-- C1 counterexample to the claim as stated: a 304 response is non-2xx,
yet `get_parent_id` does not propagate any error (it returns the parsed
body); and on a 404 the serialized `get_all_spaces` result is exactly
`{"results": []}`, with no message field describing the failure. -/
theorem error_propagation_counterexample :
    (get_parent_id (constWorld ⟨304, some (.obj [])⟩) { content_id := "123" }).1 =
      .ok (some (.obj [])) ∧
    ((304 : Nat) < 200 ∨ 299 < 304) ∧
    (get_all_spaces (constWorld ⟨404, some (.str "err")⟩)).1.toJson =
      .obj [("results", .arr [])] :=
  ⟨rfl, by decide, rfl⟩

theorem error_propagation_witness :
    (get_parent_id (constWorld ⟨404, some (.str "err")⟩) { content_id := "123" }).1 =
      .error (.httpError 404 (some (.str "err"))) ∧
    (get_all_spaces (constWorld ⟨404, some (.str "err")⟩)).1 = { results := [] } ∧
    Json.get? (get_all_spaces (constWorld ⟨404, some (.str "err")⟩)).1.toJson "message" =
      none :=
  error_propagation _ "123" 404 404 _ _ rfl (by decide) (by decide) rfl
    (by decide) (by decide)

/-- C2 (amended): on a 204 response the GET transport (`get_wrapper`)
returns `None`; on any other 2xx it parses and returns the JSON body.  The
POST transport (`post_wrapper`) has no 204 special case: it always calls
`response.json()`, which on the empty body of a 204 raises
`JSONDecodeError` instead of returning an absent result. -/
theorem transport_204 (world : World) (endpoint : String) (data : Option Json) :
    ((world ⟨.get, endpoint, none⟩).status = 204 →
      (get_wrapper world endpoint).1 = .ok none) ∧
    (∀ s j, world ⟨.get, endpoint, none⟩ = ⟨s, some j⟩ →
      200 ≤ s → s < 300 → s ≠ 204 →
      (get_wrapper world endpoint).1 = .ok (some j)) ∧
    (world ⟨.post, endpoint, truthyData data⟩ = ⟨204, none⟩ →
      (post_wrapper world endpoint data).1 = .error .jsonDecodeError) := by
  refine ⟨fun h => get_wrapper_204 h, fun s j hw ha hb hc => ?_, fun hw => ?_⟩
  · exact get_wrapper_ok_2xx hw (by omega) hc
  · exact post_wrapper_badbody hw (by omega)

/-- C2 counterexample to the claim as stated: a POST whose response is a
body-less 204 does not yield an absent/null result — `post_wrapper` raises
`JSONDecodeError` trying to parse the empty body. -/
theorem transport_204_counterexample :
    (post_wrapper (constWorld ⟨204, none⟩) "/wiki/api/v2/pages"
        (some (.obj [("a", .str "b")]))).1 = .error .jsonDecodeError ∧
    (post_wrapper (constWorld ⟨204, none⟩) "/wiki/api/v2/pages"
        (some (.obj [("a", .str "b")]))).1 ≠ .ok .null :=
  ⟨rfl, fun h => Except.noConfusion h⟩

theorem transport_204_witness :
    (get_wrapper (constWorld ⟨204, none⟩) "/e").1 = .ok none ∧
    (get_wrapper (constWorld ⟨200, some (.obj [])⟩) "/e").1 = .ok (some (.obj [])) ∧
    (post_wrapper (constWorld ⟨204, none⟩) "/e" none).1 = .error .jsonDecodeError :=
  ⟨(transport_204 (constWorld ⟨204, none⟩) "/e" none).1 rfl,
   (transport_204 (constWorld ⟨200, some (.obj [])⟩) "/e" none).2.1 200 (.obj [])
     rfl (by decide) (by decide) (by decide),
   (transport_204 (constWorld ⟨204, none⟩) "/e" none).2.2 rfl⟩

/-- C6 (amended): the transport raises an `HTTPError` carrying the
response's status and body exactly when the status is in 400-599 (the range
`requests.raise_for_status` checks); in particular it never raises one on a
2xx response, but a non-2xx status below 400 (such as 304) does not raise
either. -/
theorem transport_http_error_iff (world : World) (endpoint : String) (data : Option Json) :
    ((∃ s b, (post_wrapper world endpoint data).1 = .error (.httpError s b)) ↔
      400 ≤ (world ⟨.post, endpoint, truthyData data⟩).status ∧
        (world ⟨.post, endpoint, truthyData data⟩).status < 600) ∧
    (400 ≤ (world ⟨.post, endpoint, truthyData data⟩).status →
      (world ⟨.post, endpoint, truthyData data⟩).status < 600 →
      (post_wrapper world endpoint data).1 =
        .error (.httpError (world ⟨.post, endpoint, truthyData data⟩).status
          (world ⟨.post, endpoint, truthyData data⟩).body)) ∧
    ((∃ s b, (get_wrapper world endpoint).1 = .error (.httpError s b)) ↔
      400 ≤ (world ⟨.get, endpoint, none⟩).status ∧
        (world ⟨.get, endpoint, none⟩).status < 600) ∧
    (400 ≤ (world ⟨.get, endpoint, none⟩).status →
      (world ⟨.get, endpoint, none⟩).status < 600 →
      (get_wrapper world endpoint).1 =
        .error (.httpError (world ⟨.get, endpoint, none⟩).status
          (world ⟨.get, endpoint, none⟩).body)) := by
  have hpost : ∀ h1 h2, (post_wrapper world endpoint data).1 =
      .error (.httpError (world ⟨.post, endpoint, truthyData data⟩).status
        (world ⟨.post, endpoint, truthyData data⟩).body) :=
    fun h1 h2 => post_wrapper_error rfl h1 h2
  have hget : ∀ h1 h2, (get_wrapper world endpoint).1 =
      .error (.httpError (world ⟨.get, endpoint, none⟩).status
        (world ⟨.get, endpoint, none⟩).body) :=
    fun h1 h2 => get_wrapper_error rfl h1 h2
  refine ⟨⟨?_, fun h => ⟨_, _, hpost h.1 h.2⟩⟩, hpost, ⟨?_, fun h => ⟨_, _, hget h.1 h.2⟩⟩, hget⟩
  · rintro ⟨s, b, h⟩
    by_contra hn
    cases hb : (world ⟨.post, endpoint, truthyData data⟩).body with
    | some j =>
        have hw : world ⟨.post, endpoint, truthyData data⟩ =
            ⟨(world ⟨.post, endpoint, truthyData data⟩).status, some j⟩ := by
          rw [← hb]
        rw [post_wrapper_ok hw hn] at h
        cases h
    | none =>
        have hw : world ⟨.post, endpoint, truthyData data⟩ =
            ⟨(world ⟨.post, endpoint, truthyData data⟩).status, none⟩ := by
          rw [← hb]
        rw [post_wrapper_badbody hw hn] at h
        simp at h
  · rintro ⟨s, b, h⟩
    by_contra hn
    by_cases h4 : (world ⟨.get, endpoint, none⟩).status = 204
    · rw [get_wrapper_204 h4] at h
      cases h
    · cases hb : (world ⟨.get, endpoint, none⟩).body with
      | some j =>
          have hw : world ⟨.get, endpoint, none⟩ =
              ⟨(world ⟨.get, endpoint, none⟩).status, some j⟩ := by
            rw [← hb]
          rw [get_wrapper_ok_2xx hw hn h4] at h
          cases h
      | none =>
          rw [show (get_wrapper world endpoint).1 = .error .jsonDecodeError from ?_] at h
          · simp at h
          · simp only [get_wrapper, raise_for_status]
            rw [if_neg hn, if_pos h4]
            simp [HttpResp.json, hb, Except.map]

/-- C6 counterexample to the claim as stated: a 304 response has a status
outside 200-299, yet `get_wrapper` raises nothing — it returns the parsed
body. -/
theorem transport_http_error_counterexample :
    (get_wrapper (constWorld ⟨304, some (.obj [])⟩) "/e").1 = .ok (some (.obj [])) ∧
    ((304 : Nat) < 200 ∨ 299 < 304) :=
  ⟨rfl, by decide⟩

theorem transport_http_error_witness :
    (post_wrapper (constWorld ⟨500, some (.str "boom")⟩) "/e" none).1 =
      .error (.httpError 500 (some (.str "boom"))) ∧
    (get_wrapper (constWorld ⟨403, none⟩) "/e").1 = .error (.httpError 403 none) :=
  ⟨(transport_http_error_iff (constWorld ⟨500, some (.str "boom")⟩) "/e" none).2.1
      (by decide) (by decide),
   (transport_http_error_iff (constWorld ⟨403, none⟩) "/e" none).2.2.2
      (by decide) (by decide)⟩

/-- C5 (amended): `get_space_id` performs exactly one GET request, to
`/wiki/rest/api/space/{key}`, and returns the transport's parsed response
unchanged: no `SpaceDetails` record is constructed and nothing ties the
result's `key` field to the input key. -/
theorem get_space_id_single_get (world : World) (params : SpaceParams) :
    (get_space_id world params).2 =
      [{ method := .get, endpoint := "/wiki/rest/api/space/" ++ params.space_key,
         body := none }] ∧
    ∀ j, world ⟨.get, "/wiki/rest/api/space/" ++ params.space_key, none⟩ = ⟨200, some j⟩ →
      (get_space_id world params).1 = .ok (some j) :=
  ⟨rfl, fun j hw => get_wrapper_ok_2xx hw (by decide) (by decide)⟩

/-- C5 counterexample to the claim as stated: with the server returning a
space document whose `key` is `"OTHER"`, `get_space_id` called with input
key `"ABC"` returns that raw document unchanged — not a `SpaceDetails`
whose `key` field equals the input key. -/
theorem get_space_id_counterexample :
    (get_space_id (constWorld ⟨200, some otherKeySpace⟩) { space_key := "ABC" }).1 =
      .ok (some otherKeySpace) ∧
    Json.get? otherKeySpace "key" = some (.str "OTHER") ∧
    ("OTHER" : String) ≠ "ABC" :=
  ⟨rfl, rfl, by decide⟩

theorem get_space_id_single_get_witness :
    (get_space_id (constWorld ⟨200, some (.obj [])⟩) { space_key := "DEV" }).2 =
      [{ method := .get, endpoint := "/wiki/rest/api/space/" ++ "DEV", body := none }] ∧
    (get_space_id (constWorld ⟨200, some (.obj [])⟩) { space_key := "DEV" }).1 =
      .ok (some (.obj [])) :=
  ⟨(get_space_id_single_get (constWorld ⟨200, some (.obj [])⟩) { space_key := "DEV" }).1,
   (get_space_id_single_get (constWorld ⟨200, some (.obj [])⟩)
      { space_key := "DEV" }).2 (.obj []) rfl⟩

theorem get_available_parents_core_ok {res : Except PyError (Option Json)} {j : Json}
    (h : get_available_parents_core res = .ok j) :
    ∃ fields pages l cur, res = .ok (some (.obj fields)) ∧
      lookupField fields "results" = some pages ∧ pyIter pages = .ok l ∧
      filterCurrent l = .ok cur ∧ j = .obj (setKey fields "results" (.arr cur)) := by
  cases res with
  | error e => simp [get_available_parents_core] at h
  | ok o =>
    cases o with
    | none => simp [get_available_parents_core] at h
    | some jj =>
      cases jj with
      | obj fields =>
          simp only [get_available_parents_core] at h
          cases hl : lookupField fields "results" with
          | none => simp only [hl] at h; cases h
          | some pages =>
              simp only [hl] at h
              cases hi : pyIter pages with
              | error e => simp only [hi] at h; cases h
              | ok l =>
                  simp only [hi] at h
                  cases hf : filterCurrent l with
                  | error e => simp only [hf] at h; cases h
                  | ok cur =>
                      simp only [hf] at h
                      injection h with h
                      exact ⟨fields, pages, l, cur, rfl, hl, hi, hf, h.symm⟩
      | null => simp [get_available_parents_core] at h
      | bool b => simp [get_available_parents_core] at h
      | num n => simp [get_available_parents_core] at h
      | str s => simp [get_available_parents_core] at h
      | arr xs => simp [get_available_parents_core] at h

/-- C3: whatever list of pages the remote endpoint returns, the filtered
`results` list of `get_available_parents` contains no page whose `status`
field differs from `"current"`. -/
theorem get_available_parents_only_current (world : World)
    (request : GetAvailableParentsPayload) (pages : List Json)
    (h : Json.get? (get_available_parents world request).1 "results" = some (.arr pages)) :
    ∀ page ∈ pages, page.subscript "status" = .ok (.str "current") := by
  intro page hp
  simp only [get_available_parents] at h
  cases hcore : get_available_parents_core
      (get_wrapper world ("/wiki/api/v2/spaces/" ++ toString request.space_id ++ "/pages")).1 with
  | error e =>
      simp only [hcore] at h
      rw [show Json.get? (.obj [("message", .str e.pyStr)]) "results" = none from rfl] at h
      cases h
  | ok response =>
      simp only [hcore] at h
      obtain ⟨fields, ps, l, cur, _, _, _, hf, hj⟩ := get_available_parents_core_ok hcore
      subst hj
      simp only [Json.get?, lookupField_setKey_self] at h
      injection h with h
      injection h with h
      subst h
      exact filterCurrent_mem hf page hp

theorem get_available_parents_only_current_witness :
    Json.get? (get_available_parents (constWorld ⟨200, some pagesListing⟩)
        { space_id := 7 }).1 "results" = some (.arr [currentPage]) ∧
    Json.subscript currentPage "status" = .ok (.str "current") :=
  ⟨rfl,
   get_available_parents_only_current (constWorld ⟨200, some pagesListing⟩)
     { space_id := 7 } [currentPage] rfl currentPage (List.mem_singleton.mpr rfl)⟩

/-- C8: on success `get_available_parents` returns the whole response
object, with only its `results` field replaced by the filtered list; every
other field (e.g. pagination links) is returned unchanged. -/
theorem get_available_parents_frame (world : World)
    (request : GetAvailableParentsPayload) (fields : List (String × Json))
    (pages : Json) (l cur : List Json)
    (hw : world ⟨.get, "/wiki/api/v2/spaces/" ++ toString request.space_id ++ "/pages",
            none⟩ = ⟨200, some (.obj fields)⟩)
    (hr : lookupField fields "results" = some pages)
    (hi : pyIter pages = .ok l)
    (hf : filterCurrent l = .ok cur) :
    (get_available_parents world request).1 = .obj (setKey fields "results" (.arr cur)) ∧
    Json.get? (get_available_parents world request).1 "results" = some (.arr cur) ∧
    ∀ k, k ≠ "results" →
      Json.get? (get_available_parents world request).1 k = lookupField fields k := by
  have hwrap := get_wrapper_ok_2xx hw (by decide) (by decide)
  have hres : (get_available_parents world request).1 =
      .obj (setKey fields "results" (.arr cur)) := by
    simp only [get_available_parents, hwrap, get_available_parents_core, hr, hi, hf]
  refine ⟨hres, ?_, ?_⟩
  · rw [hres]
    simp only [Json.get?, lookupField_setKey_self]
  · intro k hk
    rw [hres]
    simp only [Json.get?]
    exact lookupField_setKey_ne fields "results" (.arr cur) k hk

theorem get_available_parents_frame_witness :
    (get_available_parents (constWorld ⟨200, some pagesListing⟩) { space_id := 7 }).1 =
      .obj [("results", .arr [currentPage]), ("_links", .str "next")] ∧
    Json.get? (get_available_parents (constWorld ⟨200, some pagesListing⟩)
        { space_id := 7 }).1 "_links" = some (.str "next") := by
  have h := get_available_parents_frame (constWorld ⟨200, some pagesListing⟩)
    { space_id := 7 } [("results", .arr [currentPage, draftPage]), ("_links", .str "next")]
    (.arr [currentPage, draftPage]) [currentPage, draftPage] [currentPage]
    rfl rfl rfl rfl
  exact ⟨h.1, (h.2.2 "_links" (by decide)).trans rfl⟩

theorem mkSpaceSummary_description {space : Json} {s : SpaceSummary}
    (h : mkSpaceSummary space = .ok s) : s.description = none := by
  simp only [mkSpaceSummary] at h
  repeat' split at h
  all_goals cases h
  all_goals rfl

theorem buildSummaries_description {l : List Json} {out : List SpaceSummary}
    (h : buildSummaries l = .ok out) : ∀ s ∈ out, s.description = none := by
  induction l generalizing out with
  | nil =>
      intro s hs
      simp only [buildSummaries] at h
      injection h with h
      subst h
      cases hs
  | cons space rest ih =>
      intro s hs
      simp only [buildSummaries] at h
      cases hm : mkSpaceSummary space with
      | error e => simp only [hm] at h; cases h
      | ok s0 =>
          simp only [hm] at h
          cases hb : buildSummaries rest with
          | error e => simp only [hb] at h; cases h
          | ok tail =>
              simp only [hb] at h
              injection h with h
              subst h
              rcases List.mem_cons.mp hs with hs | hs
              · subst hs
                exact mkSpaceSummary_description hm
              · exact ih hb s hs

theorem get_all_spaces_core_ok {res : Except PyError (Option Json)}
    {r : GetAllSpacesResponse} (h : get_all_spaces_core res = .ok r) :
    ∃ spaces, buildSummaries spaces = .ok r.results := by
  cases res with
  | error e => simp [get_all_spaces_core] at h
  | ok response =>
      simp only [get_all_spaces_core] at h
      cases hsub : pySubscript response "results" with
      | error e => simp only [hsub] at h; cases h
      | ok rj =>
          simp only [hsub] at h
          cases hit : pyIter rj with
          | error e => simp only [hit] at h; cases h
          | ok spaces =>
              simp only [hit] at h
              cases hb : buildSummaries spaces with
              | error e => simp only [hb] at h; cases h
              | ok results =>
                  simp only [hb] at h
                  injection h with h
                  exact ⟨spaces, by rw [← h]; exact hb⟩

/-- C10: every `SpaceSummary` produced by `get_all_spaces` has an absent
(`none`) description, even when the corresponding remote entry carries a
`description` field: the mapping copies only `id`, `key`, `name`, `type`
and `status`. -/
theorem get_all_spaces_description_none (world : World) (s : SpaceSummary)
    (h : s ∈ (get_all_spaces world).1.results) : s.description = none := by
  cases hcore : get_all_spaces_core (get_wrapper world "/wiki/rest/api/space").1 with
  | error e =>
      simp only [get_all_spaces, hcore] at h
      cases h
  | ok r =>
      simp only [get_all_spaces, hcore] at h
      obtain ⟨spaces, hb⟩ := get_all_spaces_core_ok hcore
      exact buildSummaries_description hb s h

theorem get_all_spaces_description_none_witness :
    (get_all_spaces (constWorld ⟨200, some spacesListing⟩)).1.results =
      [describedSummary] ∧
    Json.get? describedSpace "description" = some (.str "a described space") ∧
    describedSummary.description = none := by
  refine ⟨rfl, rfl, get_all_spaces_description_none (constWorld ⟨200, some spacesListing⟩)
    describedSummary ?_⟩
  rw [show (get_all_spaces (constWorld ⟨200, some spacesListing⟩)).1.results =
    [describedSummary] from rfl]
  exact List.mem_singleton.mpr rfl

theorem pyStrField_error {j : Json} {e : PyError} (h : pyStrField j = .error e) :
    e = .validationError := by
  cases j <;> simp_all [pyStrField]

theorem getReqStrField_error {f : List (String × Json)} {k : String} {e : PyError}
    (h : getReqStrField f k = .error e) : e = .validationError := by
  simp only [getReqStrField] at h
  cases hl : lookupField f k with
  | none => simp only [hl] at h; injection h with h; exact h.symm
  | some j => simp only [hl] at h; exact pyStrField_error h

theorem getOptStrField_error {f : List (String × Json)} {k : String} {e : PyError}
    (h : getOptStrField f k = .error e) : e = .validationError := by
  simp only [getOptStrField] at h
  cases hl : lookupField f k with
  | none => simp only [hl] at h; cases h
  | some j => cases j <;> simp_all [pyStrField]

theorem parse_missing_required {fields : List (String × Json)}
    (h : lookupField fields "spaceId" = none ∨ lookupField fields "body" = none) :
    CreatePageRequest.parse (.obj fields) = .error .validationError := by
  rcases h with h | h
  · simp [CreatePageRequest.parse, getReqStrField, h]
  · simp only [CreatePageRequest.parse]
    cases h1 : getReqStrField fields "spaceId" with
    | error e => simp only [h1]; rw [getReqStrField_error h1]
    | ok s =>
        simp only [h1]
        cases h2 : getOptStrField fields "title" with
        | error e => simp only [h2]; rw [getOptStrField_error h2]
        | ok t =>
            simp only [h2]
            cases h3 : getOptStrField fields "parentId" with
            | error e => simp only [h3]; rw [getOptStrField_error h3]
            | ok p =>
                simp only [h3]
                simp [getReqStrField, h]

/-- C7: for every action whose request model declares a required field —
`create_page` (`spaceId`, `body`), `get_parent_id` (`content_id`),
`get_space_id` and `get_space_details` (`space_key`), and
`get_available_parents` (`space_id`); the remaining actions
(`get_all_content`, `get_all_spaces`) take no required field — a payload
missing that field fails validation with a `ValidationError`, and the empty
request list shows no transport call is ever made. -/
theorem required_fields_validated (world : World)
    (fields gfields sfields dfields pfields : List (String × Json))
    (hc : lookupField fields "spaceId" = none ∨ lookupField fields "body" = none)
    (hg : lookupField gfields "content_id" = none)
    (hs : lookupField sfields "space_key" = none)
    (hd : lookupField dfields "space_key" = none)
    (hp : lookupField pfields "space_id" = none) :
    dispatch_create_page world (.obj fields) = (.error .validationError, []) ∧
    dispatch_get_parent_id world (.obj gfields) = (.error .validationError, []) ∧
    dispatch_get_space_id world (.obj sfields) = (.error .validationError, []) ∧
    dispatch_get_space_details world (.obj dfields) = (.error .validationError, []) ∧
    dispatch_get_available_parents world (.obj pfields) = (.error .validationError, []) := by
  refine ⟨?_, ?_, ?_, ?_, ?_⟩
  · simp [dispatch_create_page, parse_missing_required hc]
  · simp [dispatch_get_parent_id, ContentId.parse, getReqStrField, hg]
  · simp [dispatch_get_space_id, SpaceParams.parse, getReqStrField, hs]
  · simp [dispatch_get_space_details, SpaceParams.parse, getReqStrField, hd]
  · simp [dispatch_get_available_parents, GetAvailableParentsPayload.parse,
      getReqIntField, hp]

theorem required_fields_validated_witness :
    lookupField [("title", Json.str "T")] "spaceId" = none ∧
    dispatch_create_page (constWorld ⟨200, some .null⟩) (.obj [("title", .str "T")]) =
      (.error .validationError, []) ∧
    dispatch_get_parent_id (constWorld ⟨200, some .null⟩) (.obj []) =
      (.error .validationError, []) ∧
    dispatch_get_space_id (constWorld ⟨200, some .null⟩) (.obj []) =
      (.error .validationError, []) ∧
    dispatch_get_space_details (constWorld ⟨200, some .null⟩) (.obj []) =
      (.error .validationError, []) ∧
    dispatch_get_available_parents (constWorld ⟨200, some .null⟩)
      (.obj [("space", .num 7)]) = (.error .validationError, []) := by
  refine ⟨rfl, ?_⟩
  exact required_fields_validated (constWorld ⟨200, some .null⟩)
    [("title", .str "T")] [] [] [] [("space", .num 7)] (Or.inl rfl) rfl rfl rfl rfl

/-- C4: for every valid `CreatePageRequest`, the JSON body `create_page`
sends with its POST has `body.value` equal to the request's `body` field
verbatim, and `body.representation` equal to `"storage"`. -/
theorem create_page_sends_storage_body (world : World) (params : CreatePageRequest) :
    (create_page world params).2 =
      [{ method := .post, endpoint := "/wiki/api/v2/pages",
         body := some (create_page_data params) }] ∧
    Json.get? (create_page_data params) "body" =
      some (.obj [("representation", .str "storage"), ("value", .str params.body)]) :=
  ⟨rfl, rfl⟩

/-- C9: for every `CreatePageRequest`, the POST body sent by `create_page`
contains the field `status` with value `"current"`, regardless of the
request's fields. -/
theorem create_page_status_current (world : World) (params : CreatePageRequest) :
    (create_page world params).2.map Request.body = [some (create_page_data params)] ∧
    Json.get? (create_page_data params) "status" = some (.str "current") :=
  ⟨rfl, rfl⟩

end ConfluenceStore
